import Mathlib

/-!
Verification development for the job-description fetcher of the
Resume_builder repository (`utils/jd_fetcher.py`).

The Python module is shallowly embedded: pure string algorithms
(platform detection, URL canonicalization, JSON-LD normalization,
content validation, final text cleanup) are translated function by
function; effectful library calls (the HTTP client, BeautifulSoup
parsing, trafilatura and the headless browser) are modelled as an
explicit environment of oracles (`Env`), over which the orchestrator
`fetchJobDescription` is written exactly as the source sequences them.

Strings are modelled as Lean `String`; Python byte/unicode details are
modelled at the unicode-scalar level (percent-escapes decode to the
scalar with the escaped value, ASCII case mapping).
-/

/-- Characters stripped by Python `str.strip()` (ASCII whitespace). -/
def pyWs (c : Char) : Bool :=
  c = ' ' || c = '\t' || c = '\n' || c = '\x0b' || c = '\x0c' || c = '\r'

/-- Drop matching characters from the right end of a list. -/
def rdropWhileL (p : Char → Bool) (l : List Char) : List Char :=
  (l.reverse.dropWhile p).reverse

/-- Strip matching characters from both ends. -/
def stripBothL (p : Char → Bool) (l : List Char) : List Char :=
  rdropWhileL p (l.dropWhile p)

/-- Python `str.strip()`. -/
def pyStrip (s : String) : String := ⟨stripBothL pyWs s.data⟩

/-- Python `str.lower()` (ASCII case mapping). -/
def pyLower (s : String) : String := ⟨s.data.map Char.toLower⟩

/-- Substring test on lists: does `needle` occur contiguously in `hay`? -/
def listIsInfix (needle hay : List Char) : Bool :=
  match hay with
  | [] => needle.isEmpty
  | _ :: t => needle.isPrefixOf hay || listIsInfix needle t

/-- Python `needle in hay` for strings. -/
def pyIn (needle hay : String) : Bool := listIsInfix needle.data hay.data

/-- Python `str.startswith(prefix)`. -/
def pyStartsWith (s pre : String) : Bool := pre.data.isPrefixOf s.data

/-- Split a list at the first occurrence of `c`; `none` if absent. -/
def splitOnceL (c : Char) (l : List Char) : Option (List Char × List Char) :=
  let before := l.takeWhile (fun d => d != c)
  let rest := l.dropWhile (fun d => d != c)
  match rest with
  | [] => none
  | _ :: after => some (before, after)

/-- Python `str.split(sep)` for a one-character separator. -/
def splitOnCharL (c : Char) : List Char → List (List Char)
  | [] => [[]]
  | d :: rest =>
    let r := splitOnCharL c rest
    if d = c then [] :: r
    else (d :: r.headD []) :: r.tail

/-- Python `s.split(sep)` on strings, one-character separator. -/
def pySplitChar (c : Char) (s : String) : List String :=
  (splitOnCharL c s.data).map (fun l => ⟨l⟩)

/-- Digit test as used by the `\d` regex class (ASCII digits). -/
def isDigitC (c : Char) : Bool := '0' ≤ c && c ≤ '9'

-- =========================================================================
-- urllib.parse embedding: urlsplit / hostname / parse_qsl / unquote_plus
-- =========================================================================

/-- Characters stripped from the ends of a URL by `urlsplit`
(WHATWG C0 controls and space). -/
def urlC0 (c : Char) : Bool := c.toNat ≤ 0x20

/-- Unsafe bytes removed from the middle of a URL by `urlsplit`. -/
def urlUnsafe (c : Char) : Bool := c = '\t' || c = '\r' || c = '\n'

/-- The components of a split URL, as produced by `urllib.parse.urlsplit`. -/
structure UrlParts where
  scheme : String
  netloc : String
  path : String
  query : String
deriving Repr, DecidableEq

/-- Valid characters for a URL scheme after the first (letters, digits,
`+`, `-`, `.`). -/
def schemeChar (c : Char) : Bool :=
  (('a' ≤ c && c ≤ 'z') || ('A' ≤ c && c ≤ 'Z') || ('0' ≤ c && c ≤ '9')
    || c = '+' || c = '-' || c = '.')

/-- ASCII letter test. -/
def asciiAlpha (c : Char) : Bool := ('a' ≤ c && c ≤ 'z') || ('A' ≤ c && c ≤ 'Z')

/-- Split off `scheme:` when the part before the first `:` is a valid
scheme (nonempty, leading letter, scheme characters); returns the
lowercased scheme and the remainder. -/
def splitSchemeL (l : List Char) : List Char × List Char :=
  match splitOnceL ':' l with
  | none => ([], l)
  | some (before, after) =>
    match before with
    | [] => ([], l)
    | c0 :: rest =>
      if asciiAlpha c0 && rest.all schemeChar then
        ((c0 :: rest).map Char.toLower, after)
      else ([], l)

/-- A netloc ends at the first `/`, `?` or `#`. -/
def netDelim (c : Char) : Bool := c = '/' || c = '?' || c = '#'

/-- The scheme/netloc/path/query split of `urlsplit`, applied after
end-stripping, unsafe-byte removal and fragment removal. -/
def urlsplitCore (u2 : List Char) : Except String UrlParts :=
  match splitSchemeL u2 with
  | (scheme, '/' :: '/' :: rest2) =>
    let netloc := rest2.takeWhile (fun c => !netDelim c)
    let rest3 := rest2.dropWhile (fun c => !netDelim c)
    if (netloc.contains '[' && !netloc.contains ']')
        || (netloc.contains ']' && !netloc.contains '[') then
      .error "Invalid IPv6 URL"
    else
      match splitOnceL '?' rest3 with
      | some (p, q) => .ok ⟨⟨scheme⟩, ⟨netloc⟩, ⟨p⟩, ⟨q⟩⟩
      | none => .ok ⟨⟨scheme⟩, ⟨netloc⟩, ⟨rest3⟩, ""⟩
  | (scheme, rest) =>
    match splitOnceL '?' rest with
    | some (p, q) => .ok ⟨⟨scheme⟩, "", ⟨p⟩, ⟨q⟩⟩
    | none => .ok ⟨⟨scheme⟩, "", ⟨rest⟩, ""⟩

/-- `urllib.parse.urlsplit`, without the fragment output (the module
never reads it). Raises `ValueError("Invalid IPv6 URL")` on a netloc
with an unmatched square bracket, as CPython does. -/
def urlsplitE (url : String) : Except String UrlParts :=
  let u0 := stripBothL urlC0 url.data
  let u1 := u0.filter (fun c => !urlUnsafe c)
  -- the fragment is split off first, at the first '#'
  let u2 := match splitOnceL '#' u1 with
    | some (before, _) => before
    | none => u1
  urlsplitCore u2

/-- `urlsplit(...).hostname or ""`: the part of the netloc after the
last `@`, before the port; bracketed hosts keep the part between the
brackets; lowercased; empty string for a missing host. -/
def hostnameOf (netloc : String) : String :=
  let hostinfo := (netloc.data.reverse.takeWhile (fun c => c != '@')).reverse
  let host :=
    match splitOnceL '[' hostinfo with
    | some (_, bracketed) => bracketed.takeWhile (fun c => c != ']')
    | none => hostinfo.takeWhile (fun c => c != ':')
  ⟨host.map Char.toLower⟩

/-- Hex digit value, if any. -/
def hexVal (c : Char) : Option Nat :=
  let n := c.toNat
  if 48 ≤ n ∧ n ≤ 57 then some (n - 48)
  else if 97 ≤ n ∧ n ≤ 102 then some (n - 87)
  else if 65 ≤ n ∧ n ≤ 70 then some (n - 55)
  else none

/-- Percent-decoding part of `urllib.parse.unquote`: a `%` followed by
two hex digits decodes to that value; malformed escapes stay verbatim.
(Bytes are modelled as unicode scalars.) -/
def percentDecode : List Char → List Char
  | [] => []
  | '%' :: a :: b :: rest =>
    match hexVal a, hexVal b with
    | some ha, some hb => Char.ofNat (16 * ha + hb) :: percentDecode rest
    | _, _ => '%' :: percentDecode (a :: b :: rest)
  | c :: rest => c :: percentDecode rest

/-- `urllib.parse.unquote_plus`: `+` becomes space, then percent-decode. -/
def unquotePlus (s : String) : String :=
  ⟨percentDecode (s.data.map (fun c => if c = '+' then ' ' else c))⟩

/-- `urllib.parse.parse_qsl` with default arguments: split the query on
`&`; skip empty segments, segments without `=`, and segments with an
empty value; unquote names and values. -/
def parseQsl (qs : String) : List (String × String) :=
  (pySplitChar '&' qs).filterMap fun seg =>
    match splitOnceL '=' seg.data with
    | none => none
    | some (n, v) =>
      if v = [] then none
      else some (unquotePlus ⟨n⟩, unquotePlus ⟨v⟩)

/-- `key in parse_qs(qs)`. -/
def qsHas (key : String) (pairs : List (String × String)) : Bool :=
  pairs.any (fun p => p.1 = key)

/-- `parse_qs(qs)[key][0]`: the first value bound to `key`. -/
def qsGet (key : String) (pairs : List (String × String)) : Option String :=
  (pairs.find? (fun p => p.1 = key)).map (fun p => p.2)

-- =========================================================================
-- SOURCE DETECTION (PlatformDetector): detect_source and its regexes
-- =========================================================================

/-- Generic regex-search helper: does any suffix of `l` satisfy the
prefix-shaped predicate `p`? -/
def searchPos (p : List Char → Bool) : List Char → Bool
  | [] => p []
  | c :: t => p (c :: t) || searchPos p t

/-- `re.search(r"[?&]gh_jid=\d+", s)`: a `?` or `&`, then `gh_jid=`,
then at least one digit. -/
def ghJidPat (s : List Char) : Bool :=
  searchPos
    (fun l =>
      match l with
      | c :: rest =>
        (c = '?' || c = '&') && "gh_jid=".data.isPrefixOf rest &&
          (match rest.drop 7 with
           | d :: _ => isDigitC d
           | [] => false)
      | [] => false)
    s

/-- `re.search(r"lever\.co/[^/]+/[a-f0-9-]+", s)`: the literal
`lever.co/`, a nonempty run without `/`, a `/`, then a character from
`[a-f0-9-]`. -/
def leverPathPat (s : List Char) : Bool :=
  searchPos
    (fun l =>
      if "lever.co/".data.isPrefixOf l then
        let rest := l.drop 9
        let seg := rest.takeWhile (fun c => c != '/')
        match seg, rest.drop seg.length with
        | _ :: _, '/' :: d :: _ =>
          ('a' ≤ d && d ≤ 'f') || isDigitC d || d = '-'
        | _, _ => false
      else false)
    s

/-- `re.search(r"\.workday\.com/.*?/job/", s)`: `.workday.com/`, then
`/job/` later on the same line (`.` does not match a newline). -/
def workdayJobPat (s : List Char) : Bool :=
  searchPos
    (fun l =>
      if ".workday.com/".data.isPrefixOf l then
        scanToJob (l.drop 13)
      else false)
    s
where
  scanToJob : List Char → Bool
    | [] => "/job/".data.isPrefixOf []
    | c :: t => "/job/".data.isPrefixOf (c :: t) || (c != '\n' && scanToJob t)

/-- `re.search(r"wd\d+\.myworkdaysite\.com", s)`: `wd`, at least one
digit, then `.myworkdaysite.com`. -/
def workdaySitePat (s : List Char) : Bool :=
  searchPos
    (fun l =>
      if "wd".data.isPrefixOf l then
        let rest := l.drop 2
        let ds := rest.takeWhile isDigitC
        match ds with
        | [] => false
        | _ :: _ => ".myworkdaysite.com".data.isPrefixOf (rest.drop ds.length)
      else false)
    s

/-- `_detect_greenhouse`: the four `GREENHOUSE_PATTERNS` regexes on the
lowercased URL, plus `gh_jid` membership in the parsed query string
(exceptions from `urlparse` are swallowed). -/
def detectGreenhouse (url : String) : Bool :=
  let ul := pyLower url
  pyIn "boards.greenhouse.io" ul || pyIn "greenhouse.io/embed" ul
    || ghJidPat ul.data || pyIn "job_app.greenhouse.io" ul
    || (match urlsplitE url with
        | .ok parts => qsHas "gh_jid" (parseQsl parts.query)
        | .error _ => false)

/-- `_detect_lever`: the two `LEVER_PATTERNS` regexes on the lowercased
URL. -/
def detectLever (url : String) : Bool :=
  let ul := pyLower url
  pyIn "jobs.lever.co" ul || leverPathPat ul.data

/-- `_detect_workday`: the three `WORKDAY_PATTERNS` regexes on the
lowercased URL, plus "workday" in the parsed hostname (urlparse
exceptions swallowed). -/
def detectWorkday (url : String) : Bool :=
  let ul := pyLower url
  pyIn "myworkdayjobs.com" ul || workdayJobPat ul.data || workdaySitePat ul.data
    || (match urlsplitE url with
        | .ok parts => pyIn "workday" (pyLower (hostnameOf parts.netloc))
        | .error _ => false)

/-- `detect_source`: Greenhouse, then Lever, then Workday, then the
remaining `ATS_SELECTORS` URL patterns in insertion order, else
"generic". -/
def detectSource (url : String) : String :=
  if detectGreenhouse url then "greenhouse"
  else if detectLever url then "lever"
  else if detectWorkday url then "workday"
  else
    let ul := pyLower url
    if pyIn "icims.com" ul || pyIn "careers-" ul then "icims"
    else if pyIn "taleo.net" ul || pyIn "taleo.com" ul then "taleo"
    else if pyIn "smartrecruiters.com" ul then "smartrecruiters"
    else "generic"

-- =========================================================================
-- URL RESOLUTION (UrlCanonicalizer): resolve_url and helpers
-- =========================================================================

/-- Regex-search returning the first capture: the first suffix on which
`p` yields a group wins. -/
def searchCapture (p : List Char → Option (List Char)) : List Char → Option (List Char)
  | [] => p []
  | c :: t =>
    match p (c :: t) with
    | some g => some g
    | none => searchCapture p t

/-- `re.search(r"/jobs?/(\d+)", url)`: group 1, the digit run after
`/jobs/` or `/job/`. -/
def jobsPathId (url : String) : Option String :=
  (searchCapture
    (fun l =>
      match l with
      | '/' :: rest =>
        if "jobs/".data.isPrefixOf rest then
          match (rest.drop 5).takeWhile isDigitC with
          | [] => none
          | ds => some ds
        else if "job/".data.isPrefixOf rest then
          match (rest.drop 4).takeWhile isDigitC with
          | [] => none
          | ds => some ds
        else none
      | _ => none)
    url.data).map (fun l => ⟨l⟩)

/-- `re.search(r"boards\.greenhouse\.io/([^/]+)", url)`: group 1, the
nonempty run after `boards.greenhouse.io/` up to the next `/`. -/
def boardsCompanyMatch (url : String) : Option String :=
  (searchCapture
    (fun l =>
      if "boards.greenhouse.io/".data.isPrefixOf l then
        match (l.drop 21).takeWhile (fun c => c != '/') with
        | [] => none
        | g => some g
      else none)
    url.data).map (fun l => ⟨l⟩)

/-- `re.search(r"greenhouse\.io/embed/job_board/js\?for=([^&]+)", url)`:
group 1, the nonempty run after `greenhouse.io/embed/job_board/js?for=`
up to the next `&`. -/
def embedJsForMatch (url : String) : Option String :=
  (searchCapture
    (fun l =>
      if "greenhouse.io/embed/job_board/js?for=".data.isPrefixOf l then
        match (l.drop 37).takeWhile (fun c => c != '&') with
        | [] => none
        | g => some g
      else none)
    url.data).map (fun l => ⟨l⟩)

/-- `_extract_greenhouse_company`: the `for` query parameter, else the
`boards.greenhouse.io/<company>` path, else the embed-board `js?for=`
parameter. -/
def extractGreenhouseCompany (url : String) (qp : List (String × String)) : Option String :=
  if qsHas "for" qp then qsGet "for" qp
  else
    match boardsCompanyMatch url with
    | some m => some m
    | none => embedJsForMatch url

/-- `_resolve_greenhouse_url`. Exceptions from the unguarded
`urlparse` propagate. -/
def resolveGreenhouseUrl (url : String) : Except String (String × Bool) :=
  match urlsplitE url with
  | .error e => .error e
  | .ok parts =>
    let qp := parseQsl parts.query
    if pyIn "boards.greenhouse.io" (pyLower parts.netloc) then
      .ok (url, false)
    else if qsHas "gh_jid" qp then
      let jobId := (qsGet "gh_jid" qp).getD ""
      match extractGreenhouseCompany url qp with
      | some tok =>
        .ok ("https://boards.greenhouse.io/" ++ tok ++ "/jobs/" ++ jobId, true)
      | none =>
        .ok ("https://boards.greenhouse.io/embed/job_app?token=" ++ jobId, true)
    else if qsHas "token" qp && pyIn "greenhouse" (pyLower url) then
      .ok ("https://boards.greenhouse.io/embed/job_app?token="
        ++ (qsGet "token" qp).getD "", true)
    else
      match jobsPathId url with
      | some jobId =>
        match extractGreenhouseCompany url qp with
        | some tok =>
          .ok ("https://boards.greenhouse.io/" ++ tok ++ "/jobs/" ++ jobId, true)
        | none => .ok (url, false)
      | none => .ok (url, false)

/-- `re.sub(r"/apply/?$", "", path)`: remove a trailing `/apply` or
`/apply/` (the two cases are mutually exclusive). -/
def stripApplySuffix (path : String) : String :=
  if "/apply/".data.isSuffixOf path.data then
    ⟨path.data.take (path.data.length - 7)⟩
  else if "/apply".data.isSuffixOf path.data then
    ⟨path.data.take (path.data.length - 6)⟩
  else path

/-- `_resolve_lever_url`: strips a trailing `/apply` when the netloc is
a Lever host. Exceptions from the unguarded `urlparse` propagate. -/
def resolveLeverUrl (url : String) : Except String (String × Bool) :=
  match urlsplitE url with
  | .error e => .error e
  | .ok parts =>
    if !pyIn "lever.co" (pyLower parts.netloc) then .ok (url, false)
    else
      let cleanPath := stripApplySuffix parts.path
      if cleanPath != parts.path then
        .ok (parts.scheme ++ "://" ++ parts.netloc ++ cleanPath, true)
      else .ok (url, false)

/-- `resolve_url`: dispatch on the detected source. -/
def resolveUrlE (url : String) (source : String) : Except String (String × Bool) :=
  if source = "greenhouse" then resolveGreenhouseUrl url
  else if source = "lever" then resolveLeverUrl url
  else .ok (url, false)

-- =========================================================================
-- SCHEMA.ORG JSON-LD EXTRACTION (StructuredDataExtractor)
-- =========================================================================

/-- Parsed JSON values as produced by `json.loads` (numbers modelled as
integers; duplicate keys already collapsed by the parser). -/
inductive PyVal where
  | null
  | bool (b : Bool)
  | num (n : Int)
  | str (s : String)
  | arr (items : List PyVal)
  | obj (fields : List (String × PyVal))
deriving Repr

/-- Python truthiness of a JSON value. -/
def truthy : PyVal → Bool
  | .null => false
  | .bool b => b
  | .num n => n != 0
  | .str s => s != ""
  | .arr items => !items.isEmpty
  | .obj fields => !fields.isEmpty

/-- `d.get(key)` on a parsed JSON object (`none` for a missing key). -/
def objGet (fields : List (String × PyVal)) (key : String) : Option PyVal :=
  (fields.find? (fun p => p.1 = key)).map (fun p => p.2)

/-- `d.get(key)` with Python's `None` result as `PyVal.null`. -/
def pyDictGet (fields : List (String × PyVal)) (key : String) : PyVal :=
  (objGet fields key).getD .null

/-- `d.get(key, default)`. -/
def pyDictGetD (fields : List (String × PyVal)) (key : String) (dflt : PyVal) : PyVal :=
  (objGet fields key).getD dflt

/-- Python `repr` of a JSON value (string escaping simplified to plain
single quotes; the module only ever tests the result for truthiness). -/
def pyRepr : PyVal → String
  | .null => "None"
  | .bool true => "True"
  | .bool false => "False"
  | .num n => toString n
  | .str s => "\x27" ++ s ++ "\x27"
  | .arr items =>
    "[" ++ String.intercalate ", " (items.attach.map (fun x => pyRepr x.1)) ++ "]"
  | .obj fields =>
    "\x7b" ++
      String.intercalate ", "
        (fields.attach.map (fun x => "\x27" ++ x.1.1 ++ "\x27: " ++ pyRepr x.1.2))
      ++ "\x7d"
decreasing_by
  · have := List.sizeOf_lt_of_mem x.2; simp_all; omega
  · obtain ⟨⟨k, v⟩, hm⟩ := x
    have := List.sizeOf_lt_of_mem hm; simp_all; omega

/-- Python `str` of a JSON value. -/
def pyStr : PyVal → String
  | .str s => s
  | v => pyRepr v

/-- `_extract_schema_value(data, keys)`: first truthy value under the
given keys, flattened to a string; a truthy dict yields the first of
its `@value`/`name`/`value` entries, a truthy list joins its truthy
elements with `, `; other truthy shapes fall through to the next key. -/
def extractSchemaValue (data : List (String × PyVal)) : List String → Option String
  | [] => none
  | key :: restKeys =>
    match objGet data key with
    | some v =>
      if truthy v then
        match v with
        | .str s => some (pyStrip s)
        | .obj fields =>
          (match objGet fields "@value" with
           | some sv => some (pyStrip (pyStr sv))
           | none =>
             match objGet fields "name" with
             | some sv => some (pyStrip (pyStr sv))
             | none =>
               match objGet fields "value" with
               | some sv => some (pyStrip (pyStr sv))
               | none => extractSchemaValue data restKeys)
        | .arr items =>
          some (String.intercalate ", " ((items.filter truthy).map pyStr))
        | _ => extractSchemaValue data restKeys
      else extractSchemaValue data restKeys
    | none => extractSchemaValue data restKeys

/-- `_extract_company`: `hiringOrganization` as a string, or its
`name` / `legalName`; `PyVal.null` models Python `None`. -/
def extractCompany (data : List (String × PyVal)) : PyVal :=
  let org := pyDictGet data "hiringOrganization"
  if !truthy org then .null
  else
    match org with
    | .str s => .str s
    | .obj fields =>
      let n := pyDictGet fields "name"
      if truthy n then n else pyDictGet fields "legalName"
    | _ => .null

/-- `_parse_location_object`: address string, joined address fields, or
the object's `name`; a non-dict is stringified if truthy. -/
def parseLocationObject (loc : PyVal) : PyVal :=
  match loc with
  | .obj fields =>
    let address := pyDictGet fields "address"
    if truthy address then
      match address with
      | .str s => .str s
      | .obj afields =>
        let parts :=
          ["streetAddress", "addressLocality", "addressRegion", "postalCode",
            "addressCountry"].filterMap fun key =>
            let v := pyDictGet afields key
            if truthy v then
              match v with
              | .obj vfields => some (pyStr (pyDictGetD vfields "name" (.str (pyStr v))))
              | _ => some (pyStr v)
            else none
        if parts.isEmpty then .null else .str (String.intercalate ", " parts)
      | _ => pyDictGet fields "name"
    else pyDictGet fields "name"
  | _ => if truthy loc then .str (pyStr loc) else .null

/-- `_extract_location`: `jobLocation` as string, list (joined with
`; `, raising `TypeError` when a kept element is not a string), or
single object; anything else is `None`. -/
def extractLocation (data : List (String × PyVal)) : Except Unit PyVal :=
  let location := pyDictGet data "jobLocation"
  if !truthy location then .ok .null
  else
    match location with
    | .str s => .ok (.str s)
    | .arr locs => do
      let kept := (locs.map parseLocationObject).filter truthy
      if kept.isEmpty then
        return .null
      else
        let strs ← kept.mapM (fun v =>
          match v with
          | .str s => Except.ok s
          | _ => Except.error ())
        return .str (String.intercalate "; " strs)
    | .obj fields => .ok (parseLocationObject (.obj fields))
    | _ => .ok .null

/-- Insert a `,` after every third character (input reversed digits). -/
def commaGroupGo : List Char → List Char
  | a :: b :: c :: d :: rest => a :: b :: c :: ',' :: commaGroupGo (d :: rest)
  | l => l

/-- Thousands-separated rendering of a digit string, as in Python
`f"{n:,}"`. -/
def commaGroup (s : List Char) : List Char :=
  (commaGroupGo s.reverse).reverse

/-- Python `format(v, ",")`: integers get thousands separators, bools
format as integers, anything else raises `ValueError`. -/
def fmtComma : PyVal → Except Unit String
  | .num n =>
    if n < 0 then .ok ("-" ++ ⟨commaGroup (toString n.natAbs).data⟩)
    else .ok ⟨commaGroup (toString n.natAbs).data⟩
  | .bool b => .ok (if b then "1" else "0")
  | _ => .error ()

/-- `_extract_salary`: `baseSalary` or `estimatedSalary`, rendered as a
string; a value dict with min/max uses comma formatting (which raises
on non-numeric operands). -/
def extractSalary (data : List (String × PyVal)) : Except Unit PyVal :=
  let b := pyDictGet data "baseSalary"
  let salary := if truthy b then b else pyDictGet data "estimatedSalary"
  if !truthy salary then .ok .null
  else
    match salary with
    | .str s => .ok (.str s)
    | .obj fields =>
      let value := pyDictGet fields "value"
      let currency := pyDictGetD fields "currency" (.str "USD")
      match value with
      | .obj vfields =>
        let minV := pyDictGet vfields "minValue"
        let maxV := pyDictGet vfields "maxValue"
        let unit := pyDictGetD vfields "unitText" (.str "YEAR")
        if truthy minV && truthy maxV then do
          let ms ← fmtComma minV
          let xs ← fmtComma maxV
          return .str (pyStr currency ++ " " ++ ms ++ " - " ++ xs ++ " per " ++ pyStr unit)
        else if truthy minV then do
          let ms ← fmtComma minV
          return .str (pyStr currency ++ " " ++ ms ++ "+ per " ++ pyStr unit)
        else .ok .null
      | _ =>
        if truthy value then .ok (.str (pyStr currency ++ " " ++ pyStr value))
        else .ok .null
    | _ => .ok .null

/-- `_extract_skills`: `skills` or `qualifications`, as a list of
strings. -/
def extractSkills (data : List (String × PyVal)) : List String :=
  let a := pyDictGet data "skills"
  let skills := if truthy a then a else pyDictGet data "qualifications"
  if !truthy skills then []
  else
    match skills with
    | .str s => [s]
    | .arr items => (items.filter truthy).map pyStr
    | _ => []

/-- The normalized job-posting record built by `_normalize_job_posting`.
A `none` (or `[]` for `skills`) field models a key dropped by the
falsy-value filter `{k: v for k, v in normalized.items() if v}`. -/
structure SchemaRecord where
  title : Option String := none
  description : Option String := none
  company : Option PyVal := none
  location : Option PyVal := none
  employment_type : Option String := none
  date_posted : Option String := none
  salary : Option String := none
  experience : Option String := none
  education : Option String := none
  skills : List String := []
  industry : Option String := none
deriving Repr

/-- Keep an optional string field only when truthy. -/
def keepStr : Option String → Option String
  | some s => if s = "" then none else some s
  | none => none

/-- Keep a `PyVal` field only when truthy. -/
def keepVal (v : PyVal) : Option PyVal :=
  if truthy v then some v else none

/-- Keep a salary/location-style `PyVal` that is a string. -/
def keepValStr : PyVal → Option String
  | .str s => if s = "" then none else some s
  | _ => none

/-- `_normalize_job_posting`: build every field, then drop falsy
values; exceptions raised while building propagate. -/
def normalizeJobPosting (data : List (String × PyVal)) : Except Unit SchemaRecord :=
  match extractLocation data with
  | .error e => .error e
  | .ok location =>
    match extractSalary data with
    | .error e => .error e
    | .ok salary => .ok {
        title := keepStr (extractSchemaValue data ["title", "name"])
        description := keepStr (extractSchemaValue data ["description"])
        company := keepVal (extractCompany data)
        location := keepVal location
        employment_type := keepStr (extractSchemaValue data ["employmentType"])
        date_posted := keepStr (extractSchemaValue data ["datePosted"])
        salary := keepValStr salary
        experience := keepStr (extractSchemaValue data ["experienceRequirements"])
        education := keepStr (extractSchemaValue data ["educationRequirements"])
        skills := extractSkills data
        industry := keepStr (extractSchemaValue data ["industry"]) }

/-- `any("JobPosting" in t for t in types)`, raising `TypeError` when a
non-string is reached before a match, as Python `in` does. -/
def anyJobPosting : List PyVal → Except Unit Bool
  | [] => .ok false
  | .str s :: rest =>
    if pyIn "JobPosting" s then .ok true else anyJobPosting rest
  | _ :: _ => .error ()

/-- `_is_job_posting` on a parsed JSON object: the `@type` (default
`""`) contains `JobPosting`, directly or inside a list of types. -/
def isJobPostingObj (fields : List (String × PyVal)) : Except Unit Bool :=
  match pyDictGetD fields "@type" (.str "") with
  | .str s => .ok (pyIn "JobPosting" s)
  | .arr types => anyJobPosting types
  | _ => .ok false

/-- Scan a list of parsed values for the first job posting
(`_is_job_posting` then `_normalize_job_posting`); an exception aborts
the whole script block. -/
def scanItems : List PyVal → Except Unit (Option SchemaRecord)
  | [] => .ok none
  | .obj fields :: rest => do
    let b ← isJobPostingObj fields
    if b then
      let r ← normalizeJobPosting fields
      return some r
    else scanItems rest
  | _ :: rest => scanItems rest

/-- Process one parsed JSON-LD script block: a top-level list is
scanned; a top-level object is checked directly, then its `@graph` is
scanned (iterating a non-iterable `@graph` raises). -/
def processScriptBlock (d : PyVal) : Except Unit (Option SchemaRecord) :=
  match d with
  | .arr items => scanItems items
  | .obj fields => do
    let b ← isJobPostingObj fields
    if b then
      let r ← normalizeJobPosting fields
      return some r
    else
      match objGet fields "@graph" with
      | some g =>
        match g with
        | .arr items => scanItems items
        | .obj _ => .ok none    -- iterating a dict yields string keys
        | .str _ => .ok none    -- iterating a string yields characters
        | _ => .error ()        -- None/number/bool are not iterable
      | none => .ok none
  | _ => .ok none

/-- `extract_schema_job_posting`, over the successfully parsed JSON-LD
script blocks of the page (in document order): the first job posting
found wins; a block whose processing raises is skipped. -/
def extractSchemaJobPosting : List PyVal → Option SchemaRecord
  | [] => none
  | d :: rest =>
    match processScriptBlock d with
    | .ok (some r) => some r
    | .ok none => extractSchemaJobPosting rest
    | .error _ => extractSchemaJobPosting rest

/-- Truthiness of the normalized record, i.e. of the Python dict after
the falsy-value filter: at least one field kept. -/
def recordTruthy (r : SchemaRecord) : Bool :=
  r.title.isSome || r.description.isSome || r.company.isSome
    || r.location.isSome || r.employment_type.isSome || r.date_posted.isSome
    || r.salary.isSome || r.experience.isSome || r.education.isSome
    || !r.skills.isEmpty || r.industry.isSome

/-- `schema_data.get("description")` truthiness. -/
def descTruthy (r : SchemaRecord) : Bool :=
  match r.description with
  | some s => s != ""
  | none => false

/-- `schema_data and schema_data.get("description")`, the guard on the
structured path in `fetch_job_description`. -/
def schemaGuard : Option SchemaRecord → Bool
  | some r => recordTruthy r && descTruthy r
  | none => false

/-- `schema_to_text`: the readable rendering of the normalized record. -/
def schemaToText (d : SchemaRecord) : String :=
  let parts : List String :=
    (match d.title with
     | some s => if s != "" then ["Job Title: " ++ s] else []
     | none => [])
    ++ (match d.company with
        | some v => if truthy v then ["Company: " ++ pyStr v] else []
        | none => [])
    ++ (match d.location with
        | some v => if truthy v then ["Location: " ++ pyStr v] else []
        | none => [])
    ++ (match d.employment_type with
        | some s => if s != "" then ["Employment Type: " ++ s] else []
        | none => [])
    ++ (match d.salary with
        | some s => if s != "" then ["Salary: " ++ s] else []
        | none => [])
    ++ (match d.experience with
        | some s => if s != "" then ["Experience Required: " ++ s] else []
        | none => [])
    ++ (match d.description with
        | some s => if s != "" then ["\nDescription:\n" ++ s] else []
        | none => [])
    ++ (if !d.skills.isEmpty then
          ["\nSkills: " ++ String.intercalate ", " d.skills]
        else [])
  String.intercalate "\n" parts

-- =========================================================================
-- VALIDATION (ContentValidator)
-- =========================================================================

/-- Minimum character threshold for valid job description content. -/
def MIN_CONTENT_LENGTH : Nat := 1000

/-- Request timeout in seconds. -/
def REQUEST_TIMEOUT : Nat := 30

/-- `JD_INDICATORS`: keywords that indicate a valid job description. -/
def JD_INDICATORS : List String :=
  ["responsibilities", "requirements", "qualifications", "experience",
   "skills", "about the role", "what you\x27ll do", "who you are",
   "job description", "duties", "benefits", "salary", "apply", "position"]

/-- `_has_jd_indicators`: any indicator occurs in the lowercased text. -/
def hasJdIndicators (text : String) : Bool :=
  JD_INDICATORS.any (fun kw => pyIn kw (pyLower text))

/-- `_is_content_valid`: nonempty, trimmed length at least
`MIN_CONTENT_LENGTH`, and at least one indicator. -/
def isContentValid (text : String) : Bool :=
  if text = "" then false
  else if (pyStrip text).data.length < MIN_CONTENT_LENGTH then false
  else if !hasJdIndicators text then false
  else true

/-- `is_meaningful_content`: length at least `minLength` and at least
two indicator matches. -/
def isMeaningfulContent (text : String) (minLength : Nat) : Bool :=
  if text.data.length < minLength then false
  else 2 ≤ JD_INDICATORS.countP (fun kw => pyIn kw (pyLower text))

-- =========================================================================
-- _final_cleanup (shared by the Playwright path)
-- =========================================================================

/-- `re.sub(r"\n{3,}", "\n\n", text)`: shorten every newline run of
three or more to two. -/
def collapseNewlines : List Char → List Char
  | '\n' :: '\n' :: '\n' :: rest => collapseNewlines ('\n' :: '\n' :: rest)
  | c :: rest => c :: collapseNewlines rest
  | [] => []
decreasing_by all_goals simp_arith

/-- The character class of `r"^[\s\-•·*|/\\]+$"`. -/
def punctClassChar (c : Char) : Bool :=
  pyWs c || c = '-' || c = '•' || c = '·' || c = '*' || c = '|'
    || c = '/' || c = '\\'

/-- Keep a line in `_final_cleanup`: nonempty, not punctuation-only,
and trimmed length over 2 (or blank after trimming). -/
def keepLine (line : String) : Bool :=
  line != "" && !(line.data.all punctClassChar)
    && (2 < (pyStrip line).data.length || pyStrip line = "")

/-- Dropping a prefix never lengthens a list. -/
theorem dropWhile_length_le {α : Type} (p : α → Bool) (l : List α) :
    (l.dropWhile p).length ≤ l.length := by
  induction l with
  | nil => simp
  | cons a t ih =>
    simp only [List.dropWhile_cons]
    split
    · exact Nat.le_succ_of_le ih
    · simp

/-- `re.sub(r"[ \t]+", " ", text)`: collapse space/tab runs. -/
def collapseSpaceTab : List Char → List Char
  | [] => []
  | c :: rest =>
    if c = ' ' || c = '\t' then
      ' ' :: collapseSpaceTab (rest.dropWhile (fun d => d = ' ' || d = '\t'))
    else c :: collapseSpaceTab rest
termination_by l => l.length
decreasing_by
  all_goals simp
  all_goals exact Nat.lt_succ_of_le (dropWhile_length_le _ _)

/-- `re.sub(r"\n ", "\n", text)`: drop a single space after a newline
(left to right, non-overlapping). -/
def dropSpaceAfterNewline : List Char → List Char
  | '\n' :: ' ' :: rest => '\n' :: dropSpaceAfterNewline rest
  | c :: rest => c :: dropSpaceAfterNewline rest
  | [] => []

/-- `_final_cleanup`. -/
def finalCleanup (text : String) : String :=
  let t1 : String := ⟨collapseNewlines text.data⟩
  let lines := pySplitChar '\n' t1
  let kept := lines.filter keepLine
  let t2 := String.intercalate "\n" kept
  let t3 : String := ⟨collapseSpaceTab t2.data⟩
  let t4 : String := ⟨dropSpaceAfterNewline t3.data⟩
  pyStrip t4

-- =========================================================================
-- FETCHING (StaticFetcher over an HTTP oracle)
-- =========================================================================

/-- `FetchResult`: result of a URL fetch operation. -/
structure FetchResult where
  success : Bool
  html : Option String
  status_code : Option Nat
  error_message : Option String
  final_url : String
deriving Repr

/-- An HTTP response as seen by `_fetch_with_requests`: status, reason
phrase, final URL, declared encoding, and the decoded body under the
declared encoding (`text`) and under the detected apparent encoding. -/
structure ReqResponse where
  status : Nat
  reason : String
  url : String
  encoding : Option String
  text : String
  apparentText : String
deriving Repr

/-- Terminal outcomes of `requests.get`. -/
inductive HttpOutcome where
  | response (r : ReqResponse)
  | timeout
  | sslError (e : String)
  | connError
  | tooManyRedirects
  | reqExc (e : String)
  | otherExc (e : String)

/-- `_fetch_with_requests` over an HTTP oracle: prefix the scheme when
missing, then classify the outcome exactly as the source does. -/
def fetchWithRequests (httpGet : String → HttpOutcome) (url : String) : FetchResult :=
  let url := if pyStartsWith url "http://" || pyStartsWith url "https://" then url
             else "https://" ++ url
  match httpGet url with
  | .response r =>
    if r.status = 200 then
      let html := if r.encoding = none || r.encoding = some "ISO-8859-1" then
                    r.apparentText
                  else r.text
      ⟨true, some html, some r.status, none, r.url⟩
    else
      ⟨false, none, some r.status,
        some ("HTTP " ++ toString r.status ++ ": " ++ r.reason), r.url⟩
  | .timeout =>
    ⟨false, none, none,
      some ("Request timed out after " ++ toString REQUEST_TIMEOUT ++ "s"), url⟩
  | .sslError e => ⟨false, none, none, some ("SSL certificate error: " ++ e), url⟩
  | .connError =>
    ⟨false, none, none, some "Connection error: Could not connect to server", url⟩
  | .tooManyRedirects =>
    ⟨false, none, none, some "Too many redirects - URL may be invalid", url⟩
  | .reqExc e => ⟨false, none, none, some ("Request failed: " ++ e), url⟩
  | .otherExc e => ⟨false, none, none, some ("Unexpected error: " ++ e), url⟩

-- =========================================================================
-- PLAYWRIGHT (RenderedFetcher over a browser oracle)
-- =========================================================================

/-- `MAX_EXTRACTION_ATTEMPTS` in `_fetch_with_playwright`. -/
def MAX_EXTRACTION_ATTEMPTS : Nat := 3

/-- Terminal outcomes of the browser session of
`_fetch_with_playwright`, up to the point where `extracted_text` is
fixed: import failure, navigation timeout, navigation error, any other
exception, or the raw extracted text of the attempt loop. -/
inductive BrowserOutcome where
  | importErr
  | loadTimeout
  | navErr (e : String)
  | exn (e : String)
  | extracted (t : String)

/-- `_fetch_with_playwright` over a browser oracle: the tail of the
function — final cleanup and the 200-character floor — is embedded
from the source. -/
def fetchWithPlaywright (browser : String → String → BrowserOutcome)
    (url source : String) : Option String × String :=
  match browser url source with
  | .importErr =>
    (none, "Playwright is not installed. Install with: pip install playwright && playwright install chromium")
  | .loadTimeout => (none, "Page load timed out (30s)")
  | .navErr e => (none, "Navigation error: " ++ e)
  | .exn e => (none, "Playwright error: " ++ e)
  | .extracted t =>
    let cleaned := if t != "" then finalCleanup t else ""
    if cleaned.data.length < 200 then
      (none, "Content too short after " ++ toString MAX_EXTRACTION_ATTEMPTS
        ++ " attempts (" ++ toString cleaned.data.length ++ " chars)")
    else (some cleaned, "")

-- =========================================================================
-- FetchOrchestrator: fetch_job_description over the library oracles
-- =========================================================================

/-- The effectful collaborators of `fetch_job_description`, as oracles:
the HTTP client (`requests.get`), the BeautifulSoup-backed extractors
`extract_schema_job_posting` and `clean_html_content` on raw HTML, the
trafilatura library call (returning `none` for a falsy/failed
extraction), and the browser session of `_fetch_with_playwright`. -/
structure Env where
  httpGet : String → HttpOutcome
  extractSchema : String → Option SchemaRecord
  cleanHtml : String → String
  traf : String → String → Option String
  browser : String → String → BrowserOutcome

/-- `extract_with_trafilatura`: the library result, with falsy results
and all failures converted to `""`. -/
def trafWrap (env : Env) (html url : String) : String :=
  match env.traf html url with
  | some s => s
  | none => ""

/-- The result dictionary of `fetch_job_description`. -/
structure JDResult where
  url : String
  source : String
  ats_type : String
  raw_text : String
  schema_data : Option SchemaRecord
  resolved_url : String
  error : Option String
deriving Repr

/-- The static fetch with the one documented retry: fetch the resolved
URL, and on failure fetch the original URL when a rewrite was applied. -/
def staticFetch (env : Env) (u fetchUrl : String) (wasResolved : Bool) : FetchResult :=
  let fr := fetchWithRequests env.httpGet fetchUrl
  if !fr.success && wasResolved then fetchWithRequests env.httpGet u
  else fr

/-- `playwright_text and len(playwright_text.strip()) > 200`. -/
def pwAccept : Option String → Bool
  | some t => t != "" && 200 < (pyStrip t).data.length
  | none => false

/-- Mode `requests` of `fetch_job_description`. -/
def requestsMode (env : Env) (u fetchUrl : String) (wasResolved : Bool)
    (base : JDResult) : JDResult :=
  let fr := staticFetch env u fetchUrl wasResolved
  if !fr.success then
    { base with source := "requests", error := fr.error_message }
  else
    let html := fr.html.getD ""
    let sd := env.extractSchema html
    if schemaGuard sd then
      { base with
        source := "schema"
        schema_data := sd
        raw_text := schemaToText (sd.getD {}) }
    else
      let cleaned := env.cleanHtml html
      if isContentValid cleaned then
        { base with source := "requests", raw_text := cleaned }
      else
        let trafText := trafWrap env html fetchUrl
        if trafText != "" && cleaned.data.length < trafText.data.length then
          { base with source := "trafilatura", raw_text := trafText }
        else
          { base with
            source := "requests"
            raw_text := cleaned
            error := some "Content may be incomplete. Try Playwright mode." }

/-- Mode `playwright` of `fetch_job_description`. -/
def playwrightMode (env : Env) (fetchUrl source : String)
    (base : JDResult) : JDResult :=
  let pw := fetchWithPlaywright env.browser fetchUrl source
  if pwAccept pw.1 then
    { base with source := "playwright", raw_text := pw.1.getD "" }
  else
    { base with
      source := "playwright"
      raw_text := pw.1.getD ""
      error := some (if pw.2 != "" then pw.2
                     else "Failed to extract content with Playwright") }

/-- `f"{fetch_result.error_message if not fetch_result.success else
'OK but short'}"`. -/
def httpFailPart (fr : FetchResult) : String :=
  if !fr.success then
    match fr.error_message with
    | some m => m
    | none => "None"
  else "OK but short"

/-- Mode `auto` of `fetch_job_description`: schema, then cleaning, then
trafilatura, then Playwright, then the best leftover static candidate. -/
def autoMode (env : Env) (u fetchUrl source : String) (wasResolved : Bool)
    (base : JDResult) : JDResult :=
  let fr := staticFetch env u fetchUrl wasResolved
  let staticHit : Option JDResult :=
    if fr.success then
      let html := fr.html.getD ""
      let sd := env.extractSchema html
      if schemaGuard sd then
        some { base with
               source := "schema"
               schema_data := sd
               raw_text := schemaToText (sd.getD {}) }
      else
        let cleaned := env.cleanHtml html
        if isContentValid cleaned then
          some { base with source := "requests", raw_text := cleaned }
        else
          let trafText := trafWrap env html fetchUrl
          if isMeaningfulContent trafText 500 then
            some { base with source := "trafilatura", raw_text := trafText }
          else none
    else none
  match staticHit with
  | some r => r
  | none =>
    let pw := fetchWithPlaywright env.browser fetchUrl source
    if pwAccept pw.1 then
      { base with source := "playwright", raw_text := pw.1.getD "" }
    else
      let fallback : Option JDResult :=
        if fr.success then
          let html := fr.html.getD ""
          let cleaned := env.cleanHtml html
          let trafText := trafWrap env html fetchUrl
          let best := if trafText.data.length < cleaned.data.length then cleaned
                      else if trafText != "" then trafText
                      else cleaned
          if best != "" then
            some { base with
                   source := "requests"
                   raw_text := best
                   error := some ("Content may be incomplete. Playwright: " ++ pw.2) }
          else none
        else none
      match fallback with
      | some r => r
      | none =>
        { base with
          source := "none"
          error := some ("Failed to extract content. HTTP: " ++ httpFailPart fr
            ++ ". Playwright: " ++ pw.2) }

/-- `fetch_job_description(url, mode)`: input validation, platform
detection, URL resolution, then the selected mode. `Except.error`
models the exceptions that escape the function (the two `ValueError`s
of the input contract, and any error propagating out of the unguarded
`resolve_url`). -/
def fetchJobDescription (env : Env) (url mode : String) : Except String JDResult :=
  if url = "" || pyStrip url = "" then .error "URL cannot be empty"
  else if !(mode = "auto" || mode = "requests" || mode = "playwright") then
    .error ("Invalid mode \x27" ++ mode
      ++ "\x27. Must be one of: [\x27auto\x27, \x27requests\x27, \x27playwright\x27]")
  else
    let u := pyStrip url
    let source := detectSource u
    match resolveUrlE u source with
    | .error e => .error e
    | .ok (resolved, wasResolved) =>
      let base : JDResult :=
        { url := u
          source := ""
          ats_type := source
          raw_text := ""
          schema_data := none
          resolved_url := if wasResolved then resolved else u
          error := none }
      let fetchUrl := if wasResolved then resolved else u
      if mode = "requests" then
        .ok (requestsMode env u fetchUrl wasResolved base)
      else if mode = "playwright" then
        .ok (playwrightMode env fetchUrl source base)
      else
        .ok (autoMode env u fetchUrl source wasResolved base)

-- =========================================================================
-- Generic helper lemmas
-- =========================================================================

/-- A prefix of `l1` is a prefix of `l1 ++ l2`. -/
theorem isPrefixOf_append_left {n l1 : List Char} (l2 : List Char)
    (h : n.isPrefixOf l1 = true) : n.isPrefixOf (l1 ++ l2) = true := by
  rw [List.isPrefixOf_iff_prefix] at h ⊢
  exact h.trans (List.prefix_append l1 l2)

/-- An occurrence in `l1` is an occurrence in `l1 ++ l2`. -/
theorem listIsInfix_append_left {n l1 : List Char} (l2 : List Char)
    (h : listIsInfix n l1 = true) : listIsInfix n (l1 ++ l2) = true := by
  induction l1 with
  | nil =>
    simp only [listIsInfix] at h
    cases l2 with
    | nil => simpa [listIsInfix] using h
    | cons c t =>
      simp only [List.nil_append, listIsInfix, Bool.or_eq_true]
      exact Or.inl (by simp [List.isPrefixOf, List.isEmpty_iff.mp h])
  | cons c t ih =>
    simp only [listIsInfix, Bool.or_eq_true] at h
    rcases h with h | h
    · simp only [List.cons_append, listIsInfix, Bool.or_eq_true]
      exact Or.inl (isPrefixOf_append_left l2 h)
    · simp only [List.cons_append, listIsInfix, Bool.or_eq_true]
      exact Or.inr (ih h)

/-- Every character of an occurring needle occurs in the haystack. -/
theorem listIsInfix_subset {n hay : List Char}
    (h : listIsInfix n hay = true) : ∀ c ∈ n, c ∈ hay := by
  induction hay with
  | nil =>
    simp only [listIsInfix] at h
    simp [List.isEmpty_iff.mp h]
  | cons c t ih =>
    simp only [listIsInfix, Bool.or_eq_true] at h
    rcases h with h | h
    · rw [List.isPrefixOf_iff_prefix] at h
      exact fun a ha => h.subset ha
    · exact fun a ha => List.mem_cons_of_mem c (ih h a ha)

/-- `pyIn` over an appended haystack, left occurrence. -/
theorem pyIn_append_left (n l1 l2 : String)
    (h : pyIn n l1 = true) : pyIn n (l1 ++ l2) = true := by
  simpa [pyIn, String.data_append] using listIsInfix_append_left l2.data h

-- =========================================================================
-- Claim C7: the primary ContentValidator check
-- =========================================================================

/-- The keyword set as enumerated by the specification sentence for the
primary validity check (12 keywords; written from the spec's words, for
comparison with the source's `JD_INDICATORS`). -/
def specClaimedIndicators : List String :=
  ["responsibilities", "requirements", "qualifications", "experience",
   "skills", "about the role", "what you\x27ll do", "duties", "benefits",
   "salary", "apply", "position"]

/-- A text whose only indicator is "who you are": valid for the code,
but containing no keyword of the spec's enumerated set. -/
def c7Text : String := ⟨"who you are".data ++ List.replicate 1000 'z'⟩

/-- `dropWhile` keeps a nonempty replicate whose element fails `p`. -/
theorem dropWhile_replicate_pos {p : Char → Bool} {a : Char} {n : Nat}
    (hn : 0 < n) (ha : p a = false) :
    (List.replicate n a).dropWhile p = List.replicate n a := by
  cases n with
  | zero => simp at hn
  | succ m => simp [List.replicate_succ, List.dropWhile_cons, ha]

/-- Stripping does not change `c7Text`. -/
theorem c7_strip : pyStrip c7Text = c7Text := by
  have hdata : c7Text.data = "who you are".data ++ List.replicate 1000 'z' := rfl
  have hrepne : ((List.replicate 1000 'z').dropWhile pyWs).isEmpty = false := by
    rw [dropWhile_replicate_pos (by norm_num) (by decide)]
    simp [List.isEmpty_iff]
  have hdrop : c7Text.data.dropWhile pyWs = c7Text.data := by
    rw [hdata, List.dropWhile_append]
    rw [show (("who you are".data.dropWhile pyWs)).isEmpty = false from by decide]
    simp only [Bool.false_eq_true, ite_false]
    rw [show ("who you are".data.dropWhile pyWs) = "who you are".data from by decide]
  have hrdrop : rdropWhileL pyWs c7Text.data = c7Text.data := by
    unfold rdropWhileL
    rw [hdata, List.reverse_append, List.reverse_replicate, List.dropWhile_append,
      hrepne]
    simp only [Bool.false_eq_true, ite_false]
    rw [dropWhile_replicate_pos (by norm_num) (by decide)]
    rw [List.reverse_append, List.reverse_reverse, List.reverse_replicate]
  show (⟨stripBothL pyWs c7Text.data⟩ : String) = c7Text
  unfold stripBothL
  rw [hdrop, hrdrop]

/-- Lowercasing does not change `c7Text`. -/
theorem c7_lower : pyLower c7Text = c7Text := by
  have hdata : c7Text.data = "who you are".data ++ List.replicate 1000 'z' := rfl
  have hmap : c7Text.data.map Char.toLower = c7Text.data := by
    rw [hdata, List.map_append, List.map_replicate]
    rw [show Char.toLower 'z' = 'z' from by decide]
    rw [show "who you are".data.map Char.toLower = "who you are".data from by decide]
  show (⟨c7Text.data.map Char.toLower⟩ : String) = c7Text
  rw [hmap]

/-- The code accepts `c7Text`. -/
theorem c7_valid : isContentValid c7Text = true := by
  unfold isContentValid
  have hne : c7Text = "" → False := by
    intro h
    have h2 : c7Text.data = [] := congrArg String.data h
    have h3 : c7Text.data = 'w' :: ("ho you are".data ++ List.replicate 1000 'z') := rfl
    rw [h3] at h2
    exact List.cons_ne_nil _ _ h2
  have hlen : (pyStrip c7Text).data.length = 1011 := by
    rw [c7_strip]
    show ("who you are".data ++ List.replicate 1000 'z').length = 1011
    rw [List.length_append, List.length_replicate]
    decide
  have hind : hasJdIndicators c7Text = true := by
    unfold hasJdIndicators
    rw [List.any_eq_true]
    refine ⟨"who you are", by decide, ?_⟩
    rw [c7_lower]
    show listIsInfix "who you are".data c7Text.data = true
    exact listIsInfix_append_left _ (by decide)
  simp only [hlen, hind]
  split
  · exact absurd (by assumption) hne
  · norm_num [MIN_CONTENT_LENGTH]

/-- No keyword containing a character outside `c7Text`'s alphabet
occurs in it. -/
theorem c7_no_kw (kw : String) (c : Char) (hc : c ∈ kw.data)
    (h1 : c ∈ "who you are".data → False) (h2 : c = 'z' → False) :
    pyIn kw (pyLower c7Text) = false := by
  rw [c7_lower]
  by_contra h
  have h' : pyIn kw c7Text = true := by
    cases hb : pyIn kw c7Text with
    | true => rfl
    | false => exact absurd hb h
  have hmem : c ∈ c7Text.data := listIsInfix_subset h' c hc
  have : c ∈ "who you are".data ∨ c ∈ List.replicate 1000 'z' := by
    have hdata : c7Text.data = "who you are".data ++ List.replicate 1000 'z' := rfl
    rw [hdata] at hmem
    exact List.mem_append.mp hmem
  rcases this with h | h
  · exact h1 h
  · exact h2 (List.mem_replicate.mp h).2

/-- Claim C7 (counterexample): `c7Text` is accepted by
`_is_content_valid`, yet contains none of the twelve keywords that the
claim says are necessary for validity — the claimed "if and only if"
fails at this input. -/
theorem C7_counterexample :
    isContentValid c7Text = true ∧
      specClaimedIndicators.all (fun kw => !(pyIn kw (pyLower c7Text))) = true := by
  refine ⟨c7_valid, ?_⟩
  rw [List.all_eq_true]
  intro kw hkw
  simp only [specClaimedIndicators, List.mem_cons, List.not_mem_nil, or_false] at hkw
  have hfalse : pyIn kw (pyLower c7Text) = false := by
    rcases hkw with h|h|h|h|h|h|h|h|h|h|h|h <;> subst h
    · exact c7_no_kw _ 's' (by decide) (by decide) (by decide)
    · exact c7_no_kw _ 'q' (by decide) (by decide) (by decide)
    · exact c7_no_kw _ 'q' (by decide) (by decide) (by decide)
    · exact c7_no_kw _ 'x' (by decide) (by decide) (by decide)
    · exact c7_no_kw _ 's' (by decide) (by decide) (by decide)
    · exact c7_no_kw _ 'b' (by decide) (by decide) (by decide)
    · exact c7_no_kw _ 't' (by decide) (by decide) (by decide)
    · exact c7_no_kw _ 'd' (by decide) (by decide) (by decide)
    · exact c7_no_kw _ 'b' (by decide) (by decide) (by decide)
    · exact c7_no_kw _ 's' (by decide) (by decide) (by decide)
    · exact c7_no_kw _ 'p' (by decide) (by decide) (by decide)
    · exact c7_no_kw _ 'p' (by decide) (by decide) (by decide)
  rw [hfalse]
  rfl

/-- Claim C7 (amended): `_is_content_valid` accepts a text iff its
trimmed length is at least `MIN_CONTENT_LENGTH` (1000) and the text
contains, case-insensitively, at least one keyword of the source's
`JD_INDICATORS` list — which also holds "who you are" and
"job description" beyond the twelve keywords the claim enumerates. -/
theorem C7_amended (text : String) :
    isContentValid text = true ↔
      (MIN_CONTENT_LENGTH ≤ (pyStrip text).data.length ∧
        ∃ kw ∈ JD_INDICATORS, pyIn kw (pyLower text) = true) := by
  unfold isContentValid
  by_cases h0 : text = ""
  · subst h0
    simp only [if_pos rfl]
    constructor
    · intro h; exact absurd h (by decide)
    · rintro ⟨h1, -⟩
      exact absurd h1 (by decide)
  · rw [if_neg h0]
    by_cases hlen : (pyStrip text).data.length < MIN_CONTENT_LENGTH
    · rw [if_pos hlen]
      constructor
      · intro h; exact absurd h (by decide)
      · rintro ⟨h1, -⟩; omega
    · rw [if_neg hlen]
      by_cases hind : hasJdIndicators text
      · rw [if_neg (by simp [hind])]
        constructor
        · intro _
          refine ⟨by omega, ?_⟩
          unfold hasJdIndicators at hind
          exact List.any_eq_true.mp hind
        · intro _; rfl
      · rw [if_pos (by simp [hind])]
        constructor
        · intro h; exact absurd h (by decide)
        · rintro ⟨-, hkw⟩
          exact absurd (List.any_eq_true.mpr hkw) hind

-- =========================================================================
-- Claim C5: gh_jid query parameter forces greenhouse
-- =========================================================================

/-- Claim C5: any URL whose parsed query string carries the `gh_jid`
parameter is classified `greenhouse` by `detect_source`, whatever its
hostname: the embed-parameter check runs before every hostname rule. -/
theorem C5_gh_jid_greenhouse (url : String) (parts : UrlParts)
    (h1 : urlsplitE url = .ok parts)
    (h2 : qsHas "gh_jid" (parseQsl parts.query) = true) :
    detectSource url = "greenhouse" := by
  have hgh : detectGreenhouse url = true := by
    unfold detectGreenhouse
    rw [h1]
    simp [h2]
  unfold detectSource
  rw [hgh]
  simp

/-- A URL on a non-Greenhouse hostname carrying `gh_jid`. -/
def c5Url : String := "https://careers.acme.com/jobs?gh_jid=abc"

/-- The parse of `c5Url`. -/
def c5Parts : UrlParts := ⟨"https", "careers.acme.com", "/jobs", "gh_jid=abc"⟩

/-- Witness for C5 at a concrete non-Greenhouse host (and a job id that
defeats the `\d+` regex, so only the query-parameter rule fires). -/
theorem C5_witness : detectSource c5Url = "greenhouse" :=
  C5_gh_jid_greenhouse c5Url c5Parts (by rfl) (by rfl)

-- =========================================================================
-- Claim C9: only greenhouse and lever URLs are ever rewritten
-- =========================================================================

/-- Claim C9: for a URL whose detected platform is neither greenhouse
nor lever (workday, icims, taleo, smartrecruiters or generic),
`resolve_url` returns the URL unchanged with `wasRewritten = false`. -/
theorem C9_other_platforms_unchanged (url : String)
    (h1 : detectSource url ≠ "greenhouse")
    (h2 : detectSource url ≠ "lever") :
    resolveUrlE url (detectSource url) = .ok (url, false) := by
  unfold resolveUrlE
  rw [if_neg h1, if_neg h2]

/-- Witness for C9 at a generic URL. -/
theorem C9_witness :
    resolveUrlE "https://example.org/a" (detectSource "https://example.org/a")
      = .ok ("https://example.org/a", false) :=
  C9_other_platforms_unchanged _ (by decide) (by decide)

-- =========================================================================
-- Claim C6: idempotence of the canonicalizer
-- =========================================================================

/-- `takeWhile` over an append when the run stops inside the left part. -/
theorem takeWhile_append_stop (q : Char → Bool) (l1 l2 : List Char)
    (h : (l1.takeWhile q).length ≠ l1.length) :
    (l1 ++ l2).takeWhile q = l1.takeWhile q := by
  rw [List.takeWhile_append, if_neg h]

/-- `dropWhile` over an append when the run stops inside the left part. -/
theorem dropWhile_append_stop (q : Char → Bool) (l1 l2 : List Char)
    (h : (l1.dropWhile q).isEmpty = false) :
    (l1 ++ l2).dropWhile q = l1.dropWhile q ++ l2 := by
  rw [List.dropWhile_append, h]
  simp

/-- Stripping both ends around a head part that contains no strippable
character leaves the head part intact. -/
theorem stripBoth_append_head (p : Char → Bool) (l1 l2 : List Char)
    (h1 : (l1.dropWhile p).isEmpty = false)
    (h2 : l1.dropWhile p = l1)
    (h3 : l1.reverse.dropWhile p = l1.reverse) :
    ∃ l2x, stripBothL p (l1 ++ l2) = l1 ++ l2x := by
  unfold stripBothL rdropWhileL
  rw [List.dropWhile_append, h1]
  simp only [Bool.false_eq_true, ite_false]
  rw [h2, List.reverse_append, List.dropWhile_append]
  by_cases hc : ((l2.reverse.dropWhile p)).isEmpty = true
  · rw [if_pos hc, h3]
    exact ⟨[], by simp⟩
  · rw [if_neg hc]
    refine ⟨(l2.reverse.dropWhile p).reverse, ?_⟩
    rw [List.reverse_append, List.reverse_reverse]

/-- Splitting at a character that does not occur in the head part keeps
the head part inside the before-component. -/
theorem splitOnceL_append_head (c : Char) (l1 l2 : List Char)
    (ht : l1.takeWhile (fun d => d != c) = l1)
    (hd : l1.dropWhile (fun d => d != c) = []) :
    splitOnceL c (l1 ++ l2)
      = (splitOnceL c l2).map (fun pr => (l1 ++ pr.1, pr.2)) := by
  unfold splitOnceL
  rw [List.takeWhile_append, List.dropWhile_append, hd, ht]
  simp only [List.isEmpty_nil, ite_true, eq_self_iff_true, if_true]
  cases l2.dropWhile (fun d => d != c) with
  | nil => rfl
  | cons x xs => rfl

/-- `urlsplitCore` on `https://boards.greenhouse.io/<anything>` yields
scheme `https` and netloc `boards.greenhouse.io`. -/
theorem urlsplitCore_boards (X : List Char) :
    ∃ p q, urlsplitCore ("https://boards.greenhouse.io/".data ++ X)
      = .ok ⟨"https", "boards.greenhouse.io", p, q⟩ := by
  have hcore : urlsplitCore ("https://boards.greenhouse.io/".data ++ X) =
      (match splitOnceL '?' ('/' :: X) with
       | some (p, q) =>
         Except.ok ⟨"https", "boards.greenhouse.io", ⟨p⟩, ⟨q⟩⟩
       | none =>
         Except.ok ⟨"https", "boards.greenhouse.io", ⟨'/' :: X⟩, ""⟩) := rfl
  rw [hcore]
  cases splitOnceL '?' ('/' :: X) with
  | none => exact ⟨⟨'/' :: X⟩, "", rfl⟩
  | some pr =>
    obtain ⟨pp, qq⟩ := pr
    exact ⟨⟨pp⟩, ⟨qq⟩, rfl⟩

/-- `urlsplit` on `https://boards.greenhouse.io/<anything>` yields
scheme `https` and netloc `boards.greenhouse.io`. -/
theorem urlsplit_boards (t : String) :
    ∃ p q, urlsplitE ("https://boards.greenhouse.io/" ++ t)
      = .ok ⟨"https", "boards.greenhouse.io", p, q⟩ := by
  obtain ⟨a, ha⟩ := stripBoth_append_head urlC0
    "https://boards.greenhouse.io/".data t.data (by decide) (by decide) (by decide)
  simp only [urlsplitE, String.data_append]
  rw [ha, List.filter_append,
    show "https://boards.greenhouse.io/".data.filter (fun c => !urlUnsafe c)
      = "https://boards.greenhouse.io/".data from by decide]
  rw [splitOnceL_append_head '#' _ _ (by decide) (by decide)]
  cases hf : splitOnceL '#' (a.filter fun c => !urlUnsafe c) with
  | none =>
    simp only [Option.map_none]
    exact urlsplitCore_boards _
  | some pr =>
    obtain ⟨b, r⟩ := pr
    simp only [Option.map_some]
    exact urlsplitCore_boards b

/-- A rewritten Greenhouse URL (`https://boards.greenhouse.io/...`) is
already canonical: the netloc test fires and it comes back unchanged. -/
theorem resolveGreenhouse_boards (t : String) :
    resolveGreenhouseUrl ("https://boards.greenhouse.io/" ++ t)
      = .ok ("https://boards.greenhouse.io/" ++ t, false) := by
  obtain ⟨p, q, hsplit⟩ := urlsplit_boards t
  unfold resolveGreenhouseUrl
  rw [hsplit]
  simp [show pyIn "boards.greenhouse.io" (pyLower "boards.greenhouse.io") = true
    from by decide]

/-- Every output of `_resolve_greenhouse_url` is either the input
unchanged (not rewritten) or a `https://boards.greenhouse.io/...` URL
(rewritten). -/
theorem resolveGreenhouse_shape (url u : String) (w : Bool)
    (h : resolveGreenhouseUrl url = .ok (u, w)) :
    (u = url ∧ w = false) ∨ ∃ t, u = "https://boards.greenhouse.io/" ++ t := by
  unfold resolveGreenhouseUrl at h
  cases hsplit : urlsplitE url with
  | error e => rw [hsplit] at h; exact absurd h (by simp)
  | ok parts =>
    rw [hsplit] at h
    simp only at h
    by_cases h1 : pyIn "boards.greenhouse.io" (pyLower parts.netloc) = true
    · rw [if_pos h1] at h
      simp only [Except.ok.injEq, Prod.mk.injEq] at h
      exact Or.inl ⟨h.1.symm, h.2.symm⟩
    · rw [if_neg h1] at h
      by_cases h2 : qsHas "gh_jid" (parseQsl parts.query) = true
      · rw [if_pos h2] at h
        cases hcomp : extractGreenhouseCompany url (parseQsl parts.query) with
        | some tok =>
          rw [hcomp] at h
          simp only [Except.ok.injEq, Prod.mk.injEq] at h
          refine Or.inr ⟨tok ++ "/jobs/"
            ++ (qsGet "gh_jid" (parseQsl parts.query)).getD "", ?_⟩
          rw [← h.1]
          simp [String.append_assoc]
        | none =>
          rw [hcomp] at h
          simp only [Except.ok.injEq, Prod.mk.injEq] at h
          refine Or.inr ⟨"embed/job_app?token="
            ++ (qsGet "gh_jid" (parseQsl parts.query)).getD "", ?_⟩
          rw [← h.1, ← String.append_assoc]
          rfl
      · rw [if_neg h2] at h
        by_cases h3 : (qsHas "token" (parseQsl parts.query)
            && pyIn "greenhouse" (pyLower url)) = true
        · rw [if_pos h3] at h
          simp only [Except.ok.injEq, Prod.mk.injEq] at h
          refine Or.inr ⟨"embed/job_app?token="
            ++ (qsGet "token" (parseQsl parts.query)).getD "", ?_⟩
          rw [← h.1, ← String.append_assoc]
          rfl
        · rw [if_neg h3] at h
          cases hjob : jobsPathId url with
          | some jid =>
            rw [hjob] at h
            cases hcomp : extractGreenhouseCompany url (parseQsl parts.query) with
            | some tok =>
              rw [hcomp] at h
              simp only [Except.ok.injEq, Prod.mk.injEq] at h
              refine Or.inr ⟨tok ++ "/jobs/" ++ jid, ?_⟩
              rw [← h.1]
              simp [String.append_assoc]
            | none =>
              rw [hcomp] at h
              simp only [Except.ok.injEq, Prod.mk.injEq] at h
              exact Or.inl ⟨h.1.symm, h.2.symm⟩
          | none =>
            rw [hjob] at h
            simp only [Except.ok.injEq, Prod.mk.injEq] at h
            exact Or.inl ⟨h.1.symm, h.2.symm⟩

/-- Re-resolving any output of `_resolve_greenhouse_url` leaves it
unchanged. -/
theorem resolveGreenhouse_idem (url u : String) (w : Bool)
    (h : resolveGreenhouseUrl url = .ok (u, w)) :
    resolveGreenhouseUrl u = .ok (u, false) := by
  rcases resolveGreenhouse_shape url u w h with ⟨hu, hw⟩ | ⟨t, ht⟩
  · subst hu; subst hw; exact h
  · subst ht; exact resolveGreenhouse_boards t

/-- Claim C6 (amended): for every URL and every detected platform
other than lever, the canonicalizer is idempotent: re-resolving the
output returns it unchanged with `wasRewritten = false`. (For lever the
second application can strip a further `/apply`; see the
counterexample.) -/
theorem C6_amended_idempotent (url source u : String) (w : Bool)
    (hsrc : source ≠ "lever")
    (h : resolveUrlE url source = .ok (u, w)) :
    resolveUrlE u source = .ok (u, false) := by
  unfold resolveUrlE at h ⊢
  by_cases hg : source = "greenhouse"
  · rw [if_pos hg] at h ⊢
    exact resolveGreenhouse_idem url u w h
  · rw [if_neg hg, if_neg hsrc] at h ⊢

/-- Claim C6 (counterexample): a lever URL ending in `/apply/apply` is
rewritten by the first application and rewritten AGAIN by the second —
`resolve_url` applied to its own output returns `wasRewritten = true`,
refuting idempotence as claimed for every platform. -/
theorem C6_counterexample :
    detectSource "https://jobs.lever.co/acme/123/apply/apply" = "lever" ∧
      resolveUrlE "https://jobs.lever.co/acme/123/apply/apply" "lever"
        = .ok ("https://jobs.lever.co/acme/123/apply", true) ∧
      resolveUrlE "https://jobs.lever.co/acme/123/apply" "lever"
        = .ok ("https://jobs.lever.co/acme/123", true) :=
  ⟨rfl, rfl, rfl⟩

/-- Witness for the amended C6 on a rewritten Greenhouse embed URL. -/
theorem C6_witness :
    resolveUrlE "https://boards.greenhouse.io/embed/job_app?token=5" "greenhouse"
      = .ok ("https://boards.greenhouse.io/embed/job_app?token=5", false) :=
  C6_amended_idempotent "https://acme.com/?gh_jid=5" "greenhouse"
    "https://boards.greenhouse.io/embed/job_app?token=5" true
    (by decide) (by rfl)

-- =========================================================================
-- Claim C8: normalized records hold only truthy fields
-- =========================================================================

/-- A kept optional string field is nonempty. -/
theorem keepStr_ne {o : Option String} {s : String}
    (h : keepStr o = some s) : s ≠ "" := by
  unfold keepStr at h
  cases o with
  | none => exact absurd h (by simp)
  | some t =>
    simp only at h
    by_cases ht : t = ""
    · rw [if_pos ht] at h; exact absurd h (by simp)
    · rw [if_neg ht] at h
      cases h
      exact ht

/-- A kept `PyVal` field is truthy. -/
theorem keepVal_truthy {v u : PyVal} (h : keepVal v = some u) :
    truthy u = true := by
  unfold keepVal at h
  by_cases hv : truthy v = true
  · rw [if_pos hv] at h; cases h; exact hv
  · rw [if_neg hv] at h; exact absurd h (by simp)

/-- A kept string-valued `PyVal` field is nonempty. -/
theorem keepValStr_ne {v : PyVal} {s : String}
    (h : keepValStr v = some s) : s ≠ "" := by
  unfold keepValStr at h
  cases v with
  | str t =>
    simp only at h
    by_cases ht : t = ""
    · rw [if_pos ht] at h; exact absurd h (by simp)
    · rw [if_neg ht] at h; cases h; exact ht
  | null => exact absurd h (by simp)
  | bool b => exact absurd h (by simp)
  | num n => exact absurd h (by simp)
  | arr l => exact absurd h (by simp)
  | obj l => exact absurd h (by simp)

/-- Claim C8: every record `_normalize_job_posting` returns holds only
fields with truthy values — a `None`, empty-string or empty-list value
is dropped (modelled by `none`, and by `[]` for `skills`), so a present
string field is nonempty and a present `PyVal` field is truthy. -/
theorem C8_normalized_fields_truthy (data : List (String × PyVal))
    (r : SchemaRecord) (h : normalizeJobPosting data = .ok r) :
    (∀ s, r.title = some s → s ≠ "") ∧
    (∀ s, r.description = some s → s ≠ "") ∧
    (∀ v, r.company = some v → truthy v = true) ∧
    (∀ v, r.location = some v → truthy v = true) ∧
    (∀ s, r.employment_type = some s → s ≠ "") ∧
    (∀ s, r.date_posted = some s → s ≠ "") ∧
    (∀ s, r.salary = some s → s ≠ "") ∧
    (∀ s, r.experience = some s → s ≠ "") ∧
    (∀ s, r.education = some s → s ≠ "") ∧
    (∀ s, r.industry = some s → s ≠ "") := by
  unfold normalizeJobPosting at h
  cases hloc : extractLocation data with
  | error e => rw [hloc] at h; exact absurd h (by simp)
  | ok location =>
    rw [hloc] at h
    cases hsal : extractSalary data with
    | error e => rw [hsal] at h; exact absurd h (by simp)
    | ok salary =>
      rw [hsal] at h
      simp only [Except.ok.injEq] at h
      subst h
      refine ⟨fun s hs => keepStr_ne hs, fun s hs => keepStr_ne hs,
        fun v hv => keepVal_truthy hv, fun v hv => keepVal_truthy hv,
        fun s hs => keepStr_ne hs, fun s hs => keepStr_ne hs,
        fun s hs => keepValStr_ne hs, fun s hs => keepStr_ne hs,
        fun s hs => keepStr_ne hs, fun s hs => keepStr_ne hs⟩

/-- A small concrete JSON-LD object for the C8 witness. -/
def c8Data : List (String × PyVal) :=
  [("@type", .str "JobPosting"), ("title", .str "Engineer"),
   ("employmentType", .str "")]

/-- The record `_normalize_job_posting` produces on `c8Data` (note the
empty `employmentType` is dropped, not kept empty). -/
def c8Rec : SchemaRecord := { title := some "Engineer" }

/-- Witness for C8 on `c8Data`. -/
theorem C8_witness :
    (∀ s, c8Rec.title = some s → s ≠ "") ∧
    (∀ s, c8Rec.description = some s → s ≠ "") ∧
    (∀ v, c8Rec.company = some v → truthy v = true) ∧
    (∀ v, c8Rec.location = some v → truthy v = true) ∧
    (∀ s, c8Rec.employment_type = some s → s ≠ "") ∧
    (∀ s, c8Rec.date_posted = some s → s ≠ "") ∧
    (∀ s, c8Rec.salary = some s → s ≠ "") ∧
    (∀ s, c8Rec.experience = some s → s ≠ "") ∧
    (∀ s, c8Rec.education = some s → s ≠ "") ∧
    (∀ s, c8Rec.industry = some s → s ≠ "") :=
  C8_normalized_fields_truthy c8Data c8Rec (by rfl)

-- =========================================================================
-- Claim C4: records without a description
-- =========================================================================

/-- A JSON-LD script block whose job posting has a title but no
description. -/
def c4Blocks : List PyVal :=
  [.obj [("@type", .str "JobPosting"), ("title", .str "Engineer")]]

/-- The record the extractor returns for `c4Blocks`. -/
def c4Rec : SchemaRecord := { title := some "Engineer" }

/-- Claim C4 (counterexample): on a job-posting record lacking a
description, `extract_schema_job_posting` does NOT return absent — it
returns the normalized record with `description` absent. The required
drop to absent happens only downstream, in `fetch_job_description`. -/
theorem C4_counterexample :
    extractSchemaJobPosting c4Blocks = some c4Rec ∧ c4Rec.description = none :=
  ⟨rfl, rfl⟩

/-- `schemaGuard` succeeds only on a present record with a truthy
description. -/
theorem schemaGuard_desc {sd : Option SchemaRecord}
    (h : schemaGuard sd = true) :
    ∃ rec, sd = some rec ∧ descTruthy rec = true := by
  cases sd with
  | none => exact absurd h (by simp [schemaGuard])
  | some rec =>
    refine ⟨rec, rfl, ?_⟩
    unfold schemaGuard at h
    exact (Bool.and_eq_true_iff.mp h).2

-- =========================================================================
-- Mode characterization lemmas (shared by C1 and C4)
-- =========================================================================

/-- In `requests` mode the source is `requests`, `trafilatura`, or
`schema`; in the latter case the guard held on the stored record. -/
theorem requestsMode_source_spec (env : Env) (u fu : String) (wasr : Bool)
    (base : JDResult) :
    (requestsMode env u fu wasr base).source = "requests"
      ∨ ((requestsMode env u fu wasr base).source = "schema" ∧
          schemaGuard ((requestsMode env u fu wasr base).schema_data) = true)
      ∨ (requestsMode env u fu wasr base).source = "trafilatura" := by
  simp only [requestsMode]
  split
  · exact Or.inl rfl
  · split
    · rename_i hguard
      exact Or.inr (Or.inl ⟨rfl, hguard⟩)
    · split
      · exact Or.inl rfl
      · split
        · exact Or.inr (Or.inr rfl)
        · exact Or.inl rfl

/-- In `playwright` mode the source is always `playwright`. -/
theorem playwrightMode_source (env : Env) (fu src : String) (base : JDResult) :
    (playwrightMode env fu src base).source = "playwright" := by
  simp only [playwrightMode]
  split
  · rfl
  · rfl

/-- The `auto` mode result with source `none` carries the base's text
(empty in the pipeline) and a composed error message. -/
theorem autoMode_none_spec (env : Env) (u fu src : String) (wasr : Bool)
    (base r : JDResult) (hr : autoMode env u fu src wasr base = r)
    (h : r.source = "none") :
    r.raw_text = base.raw_text ∧ r.error.isSome = true := by
  simp only [autoMode] at hr
  split at hr
  · rename_i r0 heq
    subst hr
    repeat' split at heq
    all_goals first
      | (simp at heq; done)
      | (simp only [Option.some.injEq] at heq; rw [← heq] at h; simp at h;
         done)
  · rename_i heq
    split at hr
    · rw [← hr] at h
      simp at h
    · split at hr
      · rename_i r2 heq2
        subst hr
        repeat' split at heq2
        all_goals first
          | (simp at heq2; done)
          | (simp only [Option.some.injEq] at heq2; rw [← heq2] at h;
             simp at h; done)
      · rw [← hr]
        exact ⟨rfl, rfl⟩

/-- The `auto` mode result with source `schema` stores a record that
passed the description guard. -/
theorem autoMode_schema_spec (env : Env) (u fu src : String) (wasr : Bool)
    (base r : JDResult) (hr : autoMode env u fu src wasr base = r)
    (h : r.source = "schema") :
    schemaGuard r.schema_data = true := by
  simp only [autoMode] at hr
  split at hr
  · rename_i r0 heq
    subst hr
    repeat' split at heq
    all_goals first
      | (simp at heq; done)
      | (simp only [Option.some.injEq] at heq; rw [← heq] at h; simp at h;
         done)
      | (simp only [Option.some.injEq] at heq; rw [← heq]; simp only []
         assumption)
  · rename_i heq
    split at hr
    · rw [← hr] at h
      simp at h
    · split at hr
      · rename_i r2 heq2
        subst hr
        repeat' split at heq2
        all_goals first
          | (simp at heq2; done)
          | (simp only [Option.some.injEq] at heq2; rw [← heq2] at h;
             simp at h; done)
      · rw [← hr] at h
        simp at h

/-- Any successful run of the pipeline is one of the three mode
computations over the base record built from the stripped URL. -/
theorem fetchJD_cases (env : Env) (url mode : String) (r : JDResult)
    (h : fetchJobDescription env url mode = .ok r) :
    ∃ resolved wasr,
      resolveUrlE (pyStrip url) (detectSource (pyStrip url))
          = .ok (resolved, wasr) ∧
      (let base : JDResult :=
        { url := pyStrip url
          source := ""
          ats_type := detectSource (pyStrip url)
          raw_text := ""
          schema_data := none
          resolved_url := if wasr then resolved else pyStrip url
          error := none }
       let fu := if wasr then resolved else pyStrip url
       (mode = "requests" ∧ r = requestsMode env (pyStrip url) fu wasr base)
         ∨ (mode = "playwright"
             ∧ r = playwrightMode env fu (detectSource (pyStrip url)) base)
         ∨ r = autoMode env (pyStrip url) fu (detectSource (pyStrip url))
             wasr base) := by
  simp only [fetchJobDescription] at h
  split at h
  · exact absurd h (by simp)
  · split at h
    · exact absurd h (by simp)
    · split at h
      · exact absurd h (by simp)
      · rename_i resolved wasr heq
        refine ⟨resolved, wasr, heq, ?_⟩
        split at h
        · rename_i hm
          simp only [Except.ok.injEq] at h
          exact Or.inl ⟨hm, h.symm⟩
        · split at h
          · rename_i hm
            simp only [Except.ok.injEq] at h
            exact Or.inr (Or.inl ⟨hm, h.symm⟩)
          · simp only [Except.ok.injEq] at h
            exact Or.inr (Or.inr h.symm)

/-- Claim C1 (amended): `source = "none"` implies empty text and a
present error, for every mode and every environment. The converse
direction of the claimed "if and only if" is false (see the
counterexample): a failed `requests`-mode run has empty text and a
present error yet keeps `source = "requests"`. -/
theorem C1_amended (env : Env) (url mode : String) (r : JDResult)
    (hok : fetchJobDescription env url mode = .ok r)
    (hs : r.source = "none") :
    r.raw_text = "" ∧ r.error.isSome = true := by
  obtain ⟨resolved, wasr, hres, hcase⟩ := fetchJD_cases env url mode r hok
  simp only at hcase
  rcases hcase with ⟨-, hr⟩ | ⟨-, hr⟩ | hr
  · rcases requestsMode_source_spec env (pyStrip url) _ wasr _ with h1 | ⟨h1, -⟩ | h1 <;>
      (rw [← hr] at h1; rw [hs] at h1; exact absurd h1 (by decide))
  · have h1 := playwrightMode_source env (if wasr then resolved else pyStrip url)
      (detectSource (pyStrip url))
      { url := pyStrip url
        source := ""
        ats_type := detectSource (pyStrip url)
        raw_text := ""
        schema_data := none
        resolved_url := if wasr then resolved else pyStrip url
        error := none }
    rw [← hr, hs] at h1
    exact absurd h1 (by decide)
  · exact autoMode_none_spec env (pyStrip url) _ _ wasr _ r hr.symm hs

/-- Claim C4 (amended): the pipeline reports `source = "schema"` only
when the stored structured record passed the non-empty-description
guard of `fetch_job_description`; the drop-to-absent that the claim
attributes to the extractor lives in the orchestrator, not in
`extract_schema_job_posting` (see the counterexample). -/
theorem C4_amended (env : Env) (url mode : String) (r : JDResult)
    (hok : fetchJobDescription env url mode = .ok r)
    (hs : r.source = "schema") :
    ∃ rec, r.schema_data = some rec ∧ descTruthy rec = true := by
  obtain ⟨resolved, wasr, hres, hcase⟩ := fetchJD_cases env url mode r hok
  simp only at hcase
  rcases hcase with ⟨-, hr⟩ | ⟨-, hr⟩ | hr
  · rcases requestsMode_source_spec env (pyStrip url) _ wasr _ with h1 | ⟨-, h1⟩ | h1
    · rw [← hr, hs] at h1
      exact absurd h1 (by decide)
    · rw [← hr] at h1
      exact schemaGuard_desc h1
    · rw [← hr, hs] at h1
      exact absurd h1 (by decide)
  · have h1 := playwrightMode_source env (if wasr then resolved else pyStrip url)
      (detectSource (pyStrip url))
      { url := pyStrip url
        source := ""
        ats_type := detectSource (pyStrip url)
        raw_text := ""
        schema_data := none
        resolved_url := if wasr then resolved else pyStrip url
        error := none }
    rw [← hr, hs] at h1
    exact absurd h1 (by decide)
  · exact schemaGuard_desc
      (autoMode_schema_spec env (pyStrip url) _ _ wasr _ r hr.symm hs)

/-- Environment whose HTTP fetch returns 404 Not Found for every URL
(and whose other collaborators are inert). -/
def env404 : Env := {
  httpGet := fun _ =>
    .response ⟨404, "Not Found", "https://example.org/a", none, "", ""⟩
  extractSchema := fun _ => none
  cleanHtml := fun _ => ""
  traf := fun _ _ => none
  browser := fun _ _ => .exn "x" }

/-- The result the pipeline returns for `env404` in `requests` mode. -/
def res404 : JDResult := {
  url := "https://example.org/a"
  source := "requests"
  ats_type := "generic"
  raw_text := ""
  schema_data := none
  resolved_url := "https://example.org/a"
  error := some "HTTP 404: Not Found" }

/-- Claim C1 (counterexample): a failed HTTP-only run has empty text
and a present error, yet its `source` is `"requests"`, not `"none"` —
the claimed "if and only if" fails in the right-to-left direction. -/
theorem C1_counterexample :
    fetchJobDescription env404 "https://example.org/a" "requests"
        = .ok res404 ∧
      ¬(res404.source = "none" ↔ (res404.raw_text = "" ∧ res404.error ≠ none)) :=
  ⟨rfl, by decide⟩

/-- Environment in which every stage fails outright. -/
def envFail : Env := {
  httpGet := fun _ => .connError
  extractSchema := fun _ => none
  cleanHtml := fun _ => ""
  traf := fun _ _ => none
  browser := fun _ _ => .exn "x" }

/-- The total-failure result of `envFail` in `auto` mode. -/
def resFail : JDResult := {
  url := "https://example.org/a"
  source := "none"
  ats_type := "generic"
  raw_text := ""
  schema_data := none
  resolved_url := "https://example.org/a"
  error := some ("Failed to extract content. HTTP: Connection error: "
    ++ "Could not connect to server. Playwright: Playwright error: x") }

/-- Witness for the amended C1 at a concrete total failure. -/
theorem C1_witness : resFail.raw_text = "" ∧ resFail.error.isSome = true :=
  C1_amended envFail "https://example.org/a" "auto" resFail (by rfl) (by rfl)

/-- A structured record carrying only a description. -/
def c4wRec : SchemaRecord := { description := some "desc" }

/-- Environment whose structured-data extraction finds `c4wRec`. -/
def envSchema : Env := {
  httpGet := fun _ =>
    .response ⟨200, "OK", "https://example.org/a", some "utf-8", "", ""⟩
  extractSchema := fun _ => some c4wRec
  cleanHtml := fun _ => ""
  traf := fun _ _ => none
  browser := fun _ _ => .exn "x" }

/-- The schema-path result of `envSchema` in `auto` mode. -/
def resSchema : JDResult := {
  url := "https://example.org/a"
  source := "schema"
  ats_type := "generic"
  raw_text := schemaToText c4wRec
  schema_data := some c4wRec
  resolved_url := "https://example.org/a"
  error := none }

/-- Witness for the amended C4 at a concrete schema hit. -/
theorem C4_witness :
    ∃ rec, resSchema.schema_data = some rec ∧ descTruthy rec = true :=
  C4_amended envSchema "https://example.org/a" "auto" resSchema (by rfl) (by rfl)

-- =========================================================================
-- Claim C3: HTTP 404 in the HTTP-only mode
-- =========================================================================

/-- Claim C3 (counterexample): on an HTTP 404, mode `requests` (the
HTTP-only mode; "static" in the spec) keeps `source = "requests"` —
the claimed `source = none` never happens in this mode. -/
theorem C3_counterexample :
    fetchJobDescription env404 "https://example.org/a" "requests"
        = .ok res404 ∧
      res404.source ≠ "none" ∧ res404.error = some "HTTP 404: Not Found" :=
  ⟨rfl, by decide, rfl⟩

/-- Claim C3 (amended): when every HTTP fetch of the run returns status
404, mode `requests` returns `source = "requests"` (not `none`), empty
text, and an error `HTTP 404: <reason>` that contains "404". -/
theorem C3_amended (env : Env) (url reason rurl resolved : String) (wasr : Bool)
    (hne : pyStrip url ≠ "")
    (hres : resolveUrlE (pyStrip url) (detectSource (pyStrip url))
      = .ok (resolved, wasr))
    (hhttp : ∀ u2, env.httpGet u2 = .response ⟨404, reason, rurl, none, "", ""⟩) :
    fetchJobDescription env url "requests" = .ok {
        url := pyStrip url
        source := "requests"
        ats_type := detectSource (pyStrip url)
        raw_text := ""
        schema_data := none
        resolved_url := if wasr then resolved else pyStrip url
        error := some ("HTTP 404: " ++ reason) } ∧
      pyIn "404" ("HTTP 404: " ++ reason) = true := by
  constructor
  · have hu : ¬(url = "" ∨ pyStrip url = "") := by
      rintro (h | h)
      · exact hne (by rw [h]; rfl)
      · exact hne h
    have hfetch : ∀ u2, fetchWithRequests env.httpGet u2 = {
        success := false
        html := none
        status_code := some 404
        error_message := some ("HTTP 404: " ++ reason)
        final_url := rurl } := by
      intro u2
      unfold fetchWithRequests
      split <;> (simp only [hhttp]; rfl)
    simp only [fetchJobDescription]
    rw [if_neg (by simpa using hu), if_neg (by decide), hres]
    simp only [if_true, requestsMode, staticFetch, hfetch]
    split <;> rfl
  · exact pyIn_append_left "404" "HTTP 404: " reason (by decide)

/-- Witness for the amended C3 at the concrete 404 environment. -/
theorem C3_witness :
    fetchJobDescription env404 "https://example.org/a" "requests" = .ok {
        url := pyStrip "https://example.org/a"
        source := "requests"
        ats_type := detectSource (pyStrip "https://example.org/a")
        raw_text := ""
        schema_data := none
        resolved_url := if false then "https://example.org/a"
                        else pyStrip "https://example.org/a"
        error := some ("HTTP 404: " ++ "Not Found") } ∧
      pyIn "404" ("HTTP 404: " ++ "Not Found") = true :=
  C3_amended env404 "https://example.org/a" "Not Found" "https://example.org/a"
    "https://example.org/a" false (by decide) (by rfl) (fun _ => rfl)

-- =========================================================================
-- Claim C10: the URL is stripped before any processing
-- =========================================================================

/-- `dropWhile` is idempotent. -/
theorem dropWhile_dropWhile (p : Char → Bool) (l : List Char) :
    (l.dropWhile p).dropWhile p = l.dropWhile p := by
  induction l with
  | nil => simp
  | cons a t ih =>
    rw [List.dropWhile_cons]
    split
    · exact ih
    · rw [List.dropWhile_cons, if_neg (by assumption)]

/-- `rdropWhileL` is idempotent. -/
theorem rdropWhileL_idem (p : Char → Bool) (l : List Char) :
    rdropWhileL p (rdropWhileL p l) = rdropWhileL p l := by
  unfold rdropWhileL
  rw [List.reverse_reverse, dropWhile_dropWhile]

/-- A head that fails the predicate passes through `rdropWhileL`. -/
theorem rdropWhileL_cons_neg (p : Char → Bool) (a : Char) (l : List Char)
    (ha : p a = false) :
    rdropWhileL p (a :: l) = a :: rdropWhileL p l := by
  unfold rdropWhileL
  rw [show (a :: l).reverse = l.reverse ++ [a] from by simp,
    List.dropWhile_append]
  split
  · rename_i hemp
    rw [List.dropWhile_cons, if_neg (by rw [ha]; exact Bool.false_ne_true),
      List.isEmpty_iff.mp hemp]
    rfl
  · rw [List.reverse_append]
    rfl

/-- The head of a non-null `dropWhile` fails the predicate. -/
theorem dropWhile_head_false (p : Char → Bool) (l : List Char) (a : Char)
    (t : List Char) (h : l.dropWhile p = a :: t) : p a = false := by
  induction l with
  | nil => simp at h
  | cons b r ih =>
    rw [List.dropWhile_cons] at h
    split at h
    · exact ih h
    · cases h
      rename_i hb
      exact Bool.not_eq_true _ |>.mp hb

/-- `stripBothL` is idempotent. -/
theorem stripBothL_idem (p : Char → Bool) (l : List Char) :
    stripBothL p (stripBothL p l) = stripBothL p l := by
  unfold stripBothL
  cases hA : l.dropWhile p with
  | nil => simp [rdropWhileL]
  | cons a t =>
    have ha : p a = false := dropWhile_head_false p l a t hA
    rw [rdropWhileL_cons_neg p a t ha]
    rw [List.dropWhile_cons, if_neg (by rw [ha]; exact Bool.false_ne_true)]
    rw [rdropWhileL_cons_neg p a _ ha, rdropWhileL_idem]

/-- Python `strip` is idempotent. -/
theorem pyStrip_idem (s : String) : pyStrip (pyStrip s) = pyStrip s :=
  congrArg String.mk (stripBothL_idem pyWs s.data)

/-- Claim C10: the pipeline strips the URL before any processing — a
run on any URL equals the run on its stripped form (so `url` and
`resolved_url` are computed from the trimmed URL), and a
whitespace-only URL raises the same input-contract error as the empty
URL. -/
theorem C10_strip_first (env : Env) (url mode : String) :
    fetchJobDescription env url mode
        = fetchJobDescription env (pyStrip url) mode ∧
      (pyStrip url = "" →
        fetchJobDescription env url mode = .error "URL cannot be empty") := by
  constructor
  · simp only [fetchJobDescription, pyStrip_idem]
    by_cases hs : pyStrip url = ""
    · simp [hs]
    · have hu : ¬url = "" := by
        intro h
        exact hs (by rw [h]; rfl)
      simp [hs, hu]
  · intro hs
    simp [fetchJobDescription, hs]

/-- Witness for C10 on a whitespace-only URL. -/
theorem C10_witness :
    fetchJobDescription envFail "  \t " "auto" = .error "URL cannot be empty" :=
  (C10_strip_first envFail "  \t " "auto").2 (by rfl)

-- =========================================================================
-- Claim C2: the auto-mode leftover-candidate policy
-- =========================================================================

/-- A 250-character trafilatura extraction (non-empty but failing the
two-keyword meaningfulness check). -/
def c2TrafStr : String := ⟨List.replicate 250 'q'⟩

/-- Environment where the static fetch succeeds, cleaning yields
nothing, trafilatura yields `c2TrafStr`, and the browser crashes. -/
def envTraf : Env := {
  httpGet := fun _ =>
    .response ⟨200, "OK", "https://example.org/a", some "utf-8", "", ""⟩
  extractSchema := fun _ => none
  cleanHtml := fun _ => ""
  traf := fun _ _ => some c2TrafStr
  browser := fun _ _ => .exn "boom" }

/-- The auto-mode result for `envTraf`. -/
def resTraf : JDResult := {
  url := "https://example.org/a"
  source := "requests"
  ats_type := "generic"
  raw_text := c2TrafStr
  schema_data := none
  resolved_url := "https://example.org/a"
  error := some "Content may be incomplete. Playwright: Playwright error: boom" }

set_option maxRecDepth 4000 in
/-- Claim C2 (counterexample): both static and rendered paths fail the
validators; the longest leftover candidate is the trafilatura text
(the cleaned candidate is empty), yet the result is tagged
`source = "requests"`, not the fallback-extractor tag `"trafilatura"`
that the producing stage carries elsewhere in the pipeline. -/
theorem C2_counterexample :
    fetchJobDescription envTraf "https://example.org/a" "auto" = .ok resTraf ∧
      resTraf.raw_text = c2TrafStr ∧
      envTraf.cleanHtml "" = "" ∧
      resTraf.raw_text ≠ "" ∧
      resTraf.source = "requests" ∧
      resTraf.source ≠ "trafilatura" :=
  ⟨rfl, rfl, rfl, by decide, rfl, by decide⟩

/-- Claim C2 (amended): in mode `auto`, when the static fetch
succeeded but no stage passed its validator (no schema hit, invalid
cleaned text, unmeaningful trafilatura text, rejected Playwright
text), the pipeline returns the longer of the two static leftover
candidates (cleaned text and trafilatura text) — rendered text is not
reconsidered — tagged `source = "requests"` regardless of which static
stage produced it, with an error naming the Playwright failure; it
returns `source = "none"` exactly when both candidates are empty. -/
theorem C2_amended (env : Env) (url fu resolved html cleaned traf best : String)
    (wasr : Bool) (fr : FetchResult) (pw : Option String × String)
    (hne : pyStrip url ≠ "")
    (hres : resolveUrlE (pyStrip url) (detectSource (pyStrip url))
      = .ok (resolved, wasr))
    (hfu : fu = if wasr then resolved else pyStrip url)
    (hfr : fr = staticFetch env (pyStrip url) fu wasr)
    (hsucc : fr.success = true)
    (hhtml : html = fr.html.getD "")
    (hcleaned : cleaned = env.cleanHtml html)
    (htrafdef : traf = trafWrap env html fu)
    (hschema : schemaGuard (env.extractSchema html) = false)
    (hclean : isContentValid cleaned = false)
    (htraf : isMeaningfulContent traf 500 = false)
    (hpw : pw = fetchWithPlaywright env.browser fu (detectSource (pyStrip url)))
    (hpwfail : pwAccept pw.1 = false)
    (hbest : best = if traf.data.length < cleaned.data.length then cleaned
                    else if traf != "" then traf else cleaned) :
    fetchJobDescription env url "auto" = .ok {
        url := pyStrip url
        source := if best != "" then "requests" else "none"
        ats_type := detectSource (pyStrip url)
        raw_text := best
        schema_data := none
        resolved_url := fu
        error := some (if best != "" then
            "Content may be incomplete. Playwright: " ++ pw.2
          else
            "Failed to extract content. HTTP: OK but short. Playwright: "
              ++ pw.2) } ∧
      cleaned.data.length ≤ best.data.length ∧
      traf.data.length ≤ best.data.length ∧
      (best = cleaned ∨ best = traf) := by
  refine ⟨?_, ?_⟩
  · have hu : ¬(url = "" ∨ pyStrip url = "") := by
      rintro (h | h)
      · exact hne (by rw [h]; rfl)
      · exact hne h
    subst hfu
    subst hfr
    subst hhtml
    rw [hcleaned] at hclean
    rw [htrafdef] at htraf
    rw [hpw] at hpwfail
    simp only [fetchJobDescription]
    rw [if_neg (by simpa using hu), if_neg (by decide), hres]
    show Except.ok (autoMode env (pyStrip url)
        (if wasr then resolved else pyStrip url) (detectSource (pyStrip url))
        wasr
        { url := pyStrip url
          source := ""
          ats_type := detectSource (pyStrip url)
          raw_text := ""
          schema_data := none
          resolved_url := if wasr then resolved else pyStrip url
          error := none }) = _
    refine congrArg Except.ok ?_
    simp only [autoMode, hsucc, hschema, hclean, htraf, hpwfail,
      httpFailPart, eq_self_iff_true, if_true, Bool.not_true,
      Bool.false_eq_true, if_false]
    rw [← hcleaned, ← htrafdef, ← hpw, ← hbest]
    by_cases hb : (best != "") = true
    · simp only [if_pos hb]
    · simp only [if_neg hb]
      have hb2 : best = "" := by simpa using hb
      rw [hb2]
      rfl
  · subst hbest
    by_cases h1 : traf.data.length < cleaned.data.length
    · rw [if_pos h1]
      exact ⟨Nat.le_refl _, Nat.le_of_lt h1, Or.inl rfl⟩
    · rw [if_neg h1]
      by_cases h2 : (traf != "") = true
      · rw [if_pos h2]
        exact ⟨Nat.le_of_not_lt h1, Nat.le_refl _, Or.inr rfl⟩
      · rw [if_neg h2]
        have h3 : traf = "" := by simpa using h2
        exact ⟨Nat.le_refl _, by simp [h3], Or.inl rfl⟩

set_option maxRecDepth 4000 in
/-- Witness for C2_amended at the concrete environment `envTraf`. -/
theorem C2_witness :
    pyStrip "https://example.org/a" ≠ "" ∧
      (fetchJobDescription envTraf "https://example.org/a" "auto" = .ok {
          url := pyStrip "https://example.org/a"
          source := if c2TrafStr != "" then "requests" else "none"
          ats_type := detectSource (pyStrip "https://example.org/a")
          raw_text := c2TrafStr
          schema_data := none
          resolved_url := "https://example.org/a"
          error := some (if c2TrafStr != "" then
              "Content may be incomplete. Playwright: "
                ++ "Playwright error: boom"
            else
              "Failed to extract content. HTTP: OK but short. Playwright: "
                ++ "Playwright error: boom") } ∧
        ("" : String).data.length ≤ c2TrafStr.data.length ∧
        c2TrafStr.data.length ≤ c2TrafStr.data.length ∧
        (c2TrafStr = "" ∨ c2TrafStr = c2TrafStr)) :=
  ⟨by decide,
   C2_amended envTraf "https://example.org/a" "https://example.org/a"
     "https://example.org/a" "" "" c2TrafStr c2TrafStr false
     (staticFetch envTraf "https://example.org/a" "https://example.org/a" false)
     (none, "Playwright error: boom")
     (by decide) rfl rfl rfl rfl rfl rfl rfl rfl rfl rfl rfl rfl rfl⟩
